import Mathlib

/-!
  Verification of the realtime plugin (src/plugins/realtime/realtime.js).

  The plugin is a thin adapter between an EventSource stream and a viewer
  host: it queues outbound notifications until the viewer signals ready,
  then flushes them FIFO; it routes stream events (pageavailable, finished,
  failed, error) to handlers that broadcast through the readiness gate or
  fire directly on the host API, and terminal events close the
  subscription.

  The embedding is a state machine: plugin-scoped mutable variables become
  a state record, and each function of the source becomes a Lean function
  from state to state paired with the list of observable outputs (host-bus
  broadcasts and direct host-API fires) it produces, in order. The JSON
  decoding utility (util.parseJSON) lives in the host framework, outside
  this plugin's source, so the decoders are abstract parameters modelled
  from the spec.
-/

namespace ViewerRealtime

/-- Payload of an outbound notification: a single available page, an upper
bound of available pages, or an error record with a message. -/
inductive MsgData where
  | page (n : Nat)
  | upto (n : Nat)
  | err (s : String)
deriving DecidableEq, Repr

/-- A queued message: the name and data pushed by broadcastMessageWhenReady. -/
abbrev Msg := String × MsgData

/-- An observable output of the plugin: a broadcast on the host message bus
(scope.broadcast) or a direct fire on the host API (viewerAPI.fire). -/
inductive Out where
  | broadcast (name : String) (data : MsgData)
  | fire (name : String) (data : Option MsgData)
deriving DecidableEq, Repr

/-- The underlying EventSource connection: its URL and whether close() has
been called on it. -/
structure EventSource where
  url : String
  closed : Bool
deriving DecidableEq, Repr

/-- The Realtime wrapper object: it holds the eventSource reference until
destroy closes the connection and nulls the reference. -/
structure Realtime where
  eventSource : Option EventSource
deriving DecidableEq, Repr

/-- Realtime constructor: throws (error) when the host environment lacks
EventSource support, otherwise opens one live subscription to the URL. -/
def mkRealtime (hasEventSource : Bool) (url : String) : Except String Realtime :=
  if hasEventSource then
    Except.ok { eventSource := some { url := url, closed := false } }
  else
    Except.error "Realtime plugin requires EventSource support"

/-- Realtime.prototype.destroy: if the eventSource is present, close it and
null the reference; otherwise do nothing. -/
def Realtime.destroy (r : Realtime) : Realtime :=
  match r.eventSource with
  | some _ => { eventSource := none }
  | none => r

/-- Plugin-scoped state: the ready flag, the messageQueue, the realtime
wrapper variable (none before init and after the plugin-level destroy), and
viewerConfig.conversionIsComplete. -/
structure St where
  ready : Bool
  queue : List Msg
  realtime : Option Realtime
  conversionIsComplete : Bool
deriving DecidableEq, Repr

/-- True when the live subscription can still deliver stream events to the
registered handlers: the plugin holds a Realtime whose eventSource exists
and has not been closed. -/
def canDispatch (st : St) : Bool :=
  match st.realtime with
  | some r =>
    match r.eventSource with
    | some es => !es.closed
    | none => false
  | none => false

/-- The realtime.destroy() call made by the terminal handlers, lifted to
plugin state: destroy the wrapper when the plugin still holds one. -/
def stRealtimeDestroy (st : St) : St :=
  match st.realtime with
  | some r => { st with realtime := some r.destroy }
  | none => st

/-- broadcastMessageWhenReady: broadcast the message on the host bus when
ready, otherwise push it onto the messageQueue. -/
def broadcastMessageWhenReady (name : String) (data : MsgData) (st : St) :
    St × List Out :=
  if st.ready then
    (st, [Out.broadcast name data])
  else
    ({ st with queue := st.queue ++ [(name, data)] }, [])

/-- The while-shift loop of broadcastQueuedMessages: the broadcasts it
issues for a given queue, in FIFO order. -/
def broadcastQueuedMessagesList : List Msg → List Out
  | [] => []
  | m :: rest => Out.broadcast m.1 m.2 :: broadcastQueuedMessagesList rest

/-- handleReadyMessage: set the ready flag, then drain the messageQueue in
FIFO order onto the host bus. -/
def handleReadyMessage (st : St) : St × List Out :=
  ({ st with ready := true, queue := [] }, broadcastQueuedMessagesList st.queue)

/-- updateAvailablePages: for each page index in document order, emit a
pageavailable message through the readiness gate. -/
def updateAvailablePages : List Nat → St → St × List Out
  | [], st => (st, [])
  | p :: rest, st =>
    let r1 := broadcastMessageWhenReady "pageavailable" (MsgData.page p) st
    let r2 := updateAvailablePages rest r1.1
    (r2.1, r1.2 ++ r2.2)

/-- Modelled from the spec: the JSON decode of an error-event payload.
util.parseJSON is host-framework code outside this plugin's source; the
spec says the handler attempts to decode the payload as JSON to extract an
error field, so a successful decode is a record carrying that optional
field. -/
structure ErrData where
  error : Option String
deriving DecidableEq, Repr

/-- Ambient environment of the plugin: viewerConfig.numPages together with
the abstract decoders standing for util.parseJSON. parsePages is modelled
from the spec: the pages array of a successfully decoded pageavailable
payload. parseErr returns none exactly when decoding the payload throws. -/
structure Env where
  numPages : Nat
  parsePages : String → List Nat
  parseErr : String → Option ErrData

/-- The error message computed by handleErrorEvent: decode the payload, on
a decode failure fall back to the raw payload text as the error field, then
apply the falsy-or default of unspecified error (absent or empty message). -/
def errMessageOf (parseErr : String → Option ErrData) (payload : String) :
    String :=
  let data : ErrData :=
    match parseErr payload with
    | some d => d
    | none => { error := some payload }
  match data.error with
  | some s => if s = "" then "unspecified error" else s
  | none => "unspecified error"

/-- handlePageAvailableEvent: decode the payload and forward each listed
page through the readiness gate. -/
def handlePageAvailableEvent (env : Env) (payload : String) (st : St) :
    St × List Out :=
  updateAvailablePages (env.parsePages payload) st

/-- handleErrorEvent: fire realtimeerror directly on the host API with the
computed message, then destroy the realtime wrapper. -/
def handleErrorEvent (env : Env) (payload : String) (st : St) :
    St × List Out :=
  (stRealtimeDestroy st,
   [Out.fire "realtimeerror"
      (some (MsgData.err (errMessageOf env.parseErr payload)))])

/-- handleFinishedEvent: emit the upto notification through the readiness
gate, fire realtimecomplete directly on the host API, then destroy the
realtime wrapper. -/
def handleFinishedEvent (env : Env) (st : St) : St × List Out :=
  let r1 := broadcastMessageWhenReady "pageavailable" (MsgData.upto env.numPages) st
  (stRealtimeDestroy r1.1, r1.2 ++ [Out.fire "realtimecomplete" none])

/-- The stream events the router registers handlers for; the mode suffix
(svg or png) selects the set of names but never the handler bodies, so it
is erased here. errorEv is the generic error event. -/
inductive Ev where
  | pageavailable (payload : String)
  | finished
  | failed (payload : String)
  | errorEv (payload : String)
deriving DecidableEq, Repr

/-- Delivery of one stream event: the registered handler runs only while
the subscription is live; a closed or released eventSource dispatches
nothing. failed and the generic error event share handleErrorEvent. -/
def dispatchEvent (env : Env) (ev : Ev) (st : St) : St × List Out :=
  if canDispatch st then
    match ev with
    | Ev.pageavailable p => handlePageAvailableEvent env p st
    | Ev.finished => handleFinishedEvent env st
    | Ev.failed p => handleErrorEvent env p st
    | Ev.errorEv p => handleErrorEvent env p st
  else
    (st, [])

/-- The plugin-level destroy entry point: destroy the realtime wrapper and
null the variable when one is held, otherwise do nothing. -/
def pluginDestroy (st : St) : St :=
  match st.realtime with
  | some _ => { st with realtime := none }
  | none => st

/-- The inputs a plugin instance reacts to during its lifetime: a stream
event delivered by the transport, the ready message from the viewer scope,
or a host-initiated destroy call. -/
inductive Act where
  | stream (ev : Ev)
  | readyMsg
  | destroyAct
deriving DecidableEq, Repr

/-- One reaction of the plugin to an input. -/
def step (env : Env) (a : Act) (st : St) : St × List Out :=
  match a with
  | Act.stream ev => dispatchEvent env ev st
  | Act.readyMsg => handleReadyMessage st
  | Act.destroyAct => (pluginDestroy st, [])

/-- A whole cooperative execution: inputs handled one after the other, each
handler running to completion, outputs concatenated in order. -/
def run (env : Env) : List Act → St → St × List Out
  | [], st => (st, [])
  | a :: rest, st =>
    let r1 := step env a st
    let r2 := run env rest r1.1
    (r2.1, r1.2 ++ r2.2)

/-- The plugin's init: with no configured URL nothing happens; with a URL
it constructs the Realtime wrapper (propagating the constructor's error
uncaught), forces conversionIsComplete to false and registers the mode's
handlers. -/
def pluginInit (hasEventSource : Bool) (url : Option String) (st : St) :
    Except String St :=
  match url with
  | none => Except.ok st
  | some u =>
    match mkRealtime hasEventSource u with
    | Except.error e => Except.error e
    | Except.ok r =>
      Except.ok { st with realtime := some r, conversionIsComplete := false }

/-- A sequence of gate emissions, one broadcastMessageWhenReady call per
message, outputs in call order. -/
def emitMany : List Msg → St → St × List Out
  | [], st => (st, [])
  | m :: rest, st =>
    let r1 := broadcastMessageWhenReady m.1 m.2 st
    let r2 := emitMany rest r1.1
    (r2.1, r1.2 ++ r2.2)

/-- Terminal signals on the host API: realtimeerror and realtimecomplete
fires. -/
def isTerminal : Out → Bool
  | Out.fire n _ => n == "realtimeerror" || n == "realtimecomplete"
  | Out.broadcast _ _ => false

/-- Number of terminal signals in an output trace. -/
def terminalCount (outs : List Out) : Nat :=
  (outs.filter isTerminal).length

/-! Helper lemmas shared by the claim theorems. -/

/-- The queue drain issues exactly one broadcast per queued message, in
queue order. -/
theorem bqml_eq_map (l : List Msg) :
    broadcastQueuedMessagesList l = l.map fun m => Out.broadcast m.1 m.2 := by
  induction l with
  | nil => rfl
  | cons m rest ih => simp [broadcastQueuedMessagesList, ih]

/-- The gate emission does not touch the ready flag, the realtime wrapper
or the conversion flag. -/
theorem bmwr_fields (name : String) (data : MsgData) (st : St) :
    (broadcastMessageWhenReady name data st).1.ready = st.ready ∧
    (broadcastMessageWhenReady name data st).1.realtime = st.realtime ∧
    (broadcastMessageWhenReady name data st).1.conversionIsComplete
      = st.conversionIsComplete := by
  by_cases h : st.ready = true <;>
    simp [broadcastMessageWhenReady, h]

/-- In the ready state the gate forwards at once and leaves the state
unchanged. -/
theorem emitMany_ready (msgs : List Msg) (st : St) (h : st.ready = true) :
    emitMany msgs st = (st, msgs.map fun m => Out.broadcast m.1 m.2) := by
  induction msgs generalizing st with
  | nil => simp [emitMany]
  | cons m rest ih =>
    simp [emitMany, broadcastMessageWhenReady, h, ih st h]

/-- Before ready, the gate only queues: no output is produced and the
queue grows by the emitted messages in order. -/
theorem emitMany_notready (msgs : List Msg) (st : St) (h : st.ready = false) :
    emitMany msgs st = ({ st with queue := st.queue ++ msgs }, []) := by
  induction msgs generalizing st with
  | nil => simp [emitMany]
  | cons m rest ih =>
    have step1 := ih { st with ready := false, queue := st.queue ++ [m] } rfl
    simp [emitMany, broadcastMessageWhenReady, h, step1]

/-- updateAvailablePages in the ready state: one broadcast per page in
array order, state unchanged. -/
theorem uap_ready (pages : List Nat) (st : St) (h : st.ready = true) :
    updateAvailablePages pages st =
      (st, pages.map fun p => Out.broadcast "pageavailable" (MsgData.page p)) := by
  induction pages generalizing st with
  | nil => simp [updateAvailablePages]
  | cons p rest ih =>
    simp [updateAvailablePages, broadcastMessageWhenReady, h, ih st h]

/-- updateAvailablePages before ready: one queued message per page in
array order, no output. -/
theorem uap_notready (pages : List Nat) (st : St) (h : st.ready = false) :
    updateAvailablePages pages st =
      ({ st with queue :=
          st.queue ++ pages.map fun p => ("pageavailable", MsgData.page p) }, []) := by
  induction pages generalizing st with
  | nil => simp [updateAvailablePages]
  | cons p rest ih =>
    have step1 := ih
      { st with
          ready := false,
          queue := st.queue ++ [("pageavailable", MsgData.page p)] } rfl
    simp [updateAvailablePages, broadcastMessageWhenReady, h, step1]

/-- The handlers' realtime.destroy() call touches only the realtime
wrapper. -/
theorem stRealtimeDestroy_fields (st : St) :
    (stRealtimeDestroy st).ready = st.ready ∧
    (stRealtimeDestroy st).queue = st.queue ∧
    (stRealtimeDestroy st).conversionIsComplete = st.conversionIsComplete := by
  rcases hr : st.realtime with _ | r <;> simp [stRealtimeDestroy, hr]

/-- After the handlers' realtime.destroy() call the subscription can no
longer dispatch. -/
theorem canDispatch_stRealtimeDestroy (st : St) :
    canDispatch (stRealtimeDestroy st) = false := by
  rcases hr : st.realtime with _ | r
  · simp [stRealtimeDestroy, canDispatch, hr]
  · rcases he : r.eventSource with _ | es <;>
      simp [stRealtimeDestroy, canDispatch, Realtime.destroy, hr, he]

/-- The plugin-level destroy touches only the realtime wrapper. -/
theorem pluginDestroy_fields (st : St) :
    (pluginDestroy st).ready = st.ready ∧
    (pluginDestroy st).queue = st.queue ∧
    (pluginDestroy st).conversionIsComplete = st.conversionIsComplete := by
  rcases hr : st.realtime with _ | r <;> simp [pluginDestroy, hr]

/-- After the plugin-level destroy the subscription can no longer
dispatch. -/
theorem canDispatch_pluginDestroy (st : St) :
    canDispatch (pluginDestroy st) = false := by
  rcases hr : st.realtime with _ | r <;> simp [pluginDestroy, canDispatch, hr]

/-- A closed or released subscription dispatches nothing. -/
theorem dispatchEvent_closed (env : Env) (ev : Ev) (st : St)
    (h : canDispatch st = false) :
    dispatchEvent env ev st = (st, []) := by
  simp [dispatchEvent, h]

/-- Once the subscription cannot dispatch, a whole sequence of delivered
stream events changes nothing and produces nothing. -/
theorem run_stream_closed (env : Env) (evs : List Ev) (st : St)
    (h : canDispatch st = false) :
    run env (evs.map Act.stream) st = (st, []) := by
  induction evs with
  | nil => rfl
  | cons e rest ih =>
    simp [run, step, dispatchEvent_closed env e st h, ih]

/-- handleErrorEvent unfolded: one direct realtimeerror fire, then the
wrapper is destroyed. -/
theorem handleErrorEvent_eq (env : Env) (payload : String) (st : St) :
    handleErrorEvent env payload st =
      (stRealtimeDestroy st,
       [Out.fire "realtimeerror"
          (some (MsgData.err (errMessageOf env.parseErr payload)))]) := rfl

/-- handleFinishedEvent in the ready state: the upto broadcast reaches the
bus first, then the realtimecomplete fire, then the wrapper is destroyed. -/
theorem handleFinishedEvent_ready (env : Env) (st : St) (h : st.ready = true) :
    handleFinishedEvent env st =
      (stRealtimeDestroy st,
       [Out.broadcast "pageavailable" (MsgData.upto env.numPages),
        Out.fire "realtimecomplete" none]) := by
  simp [handleFinishedEvent, broadcastMessageWhenReady, h]

/-- handleFinishedEvent before ready: the upto message is queued by the
gate, the realtimecomplete fire still happens, then the wrapper is
destroyed. -/
theorem handleFinishedEvent_notready (env : Env) (st : St) (h : st.ready = false) :
    handleFinishedEvent env st =
      (stRealtimeDestroy
        { st with queue := st.queue ++ [("pageavailable", MsgData.upto env.numPages)] },
       [Out.fire "realtimecomplete" none]) := by
  simp [handleFinishedEvent, broadcastMessageWhenReady, h]

/-- Dispatchability depends only on the realtime wrapper. -/
theorem canDispatch_congr (st st2 : St) (h : st.realtime = st2.realtime) :
    canDispatch st = canDispatch st2 := by
  unfold canDispatch
  rw [h]

/-- The page loop never touches the realtime wrapper. -/
theorem uap_realtime (pages : List Nat) (st : St) :
    (updateAvailablePages pages st).1.realtime = st.realtime := by
  by_cases hr : st.ready = true
  · rw [uap_ready _ st hr]
  · rw [uap_notready _ st (by simpa using hr)]

/-- A trace of bus broadcasts contains no terminal host-API signal. -/
theorem filter_isTerminal_eq_nil (l : List Out)
    (h : ∀ o ∈ l, ∃ n d, o = Out.broadcast n d) :
    l.filter isTerminal = [] := by
  induction l with
  | nil => rfl
  | cons o rest ih =>
    obtain ⟨n, d, rfl⟩ := h o (by simp)
    simpa [isTerminal] using ih fun o ho => h o (by simp [ho])

/-- No step of the plugin changes viewerConfig.conversionIsComplete. -/
theorem step_conv (env : Env) (a : Act) (st : St) :
    (step env a st).1.conversionIsComplete = st.conversionIsComplete := by
  cases a with
  | readyMsg => rfl
  | destroyAct => exact (pluginDestroy_fields st).2.2
  | stream ev =>
    cases hc : canDispatch st with
    | false => simp [step, dispatchEvent, hc]
    | true =>
      cases ev with
      | pageavailable p =>
        by_cases hr : st.ready = true
        · simp [step, dispatchEvent, hc, handlePageAvailableEvent, uap_ready _ st hr]
        · simp [step, dispatchEvent, hc, handlePageAvailableEvent,
                uap_notready _ st (by simpa using hr)]
      | finished =>
        by_cases hr : st.ready = true
        · simp [step, dispatchEvent, hc, handleFinishedEvent_ready env st hr,
                stRealtimeDestroy_fields]
        · simp [step, dispatchEvent, hc,
                handleFinishedEvent_notready env st (by simpa using hr),
                stRealtimeDestroy_fields]
      | failed p =>
        simp [step, dispatchEvent, hc, handleErrorEvent_eq, stRealtimeDestroy_fields]
      | errorEv p =>
        simp [step, dispatchEvent, hc, handleErrorEvent_eq, stRealtimeDestroy_fields]

/-- The ready flag is monotone: no step resets it. -/
theorem step_ready_mono (env : Env) (a : Act) (st : St) (h : st.ready = true) :
    (step env a st).1.ready = true := by
  cases a with
  | readyMsg => rfl
  | destroyAct => exact (pluginDestroy_fields st).1.trans h
  | stream ev =>
    cases hc : canDispatch st with
    | false => simpa [step, dispatchEvent, hc] using h
    | true =>
      cases ev with
      | pageavailable p =>
        simp [step, dispatchEvent, hc, handlePageAvailableEvent, uap_ready _ st h, h]
      | finished =>
        simp [step, dispatchEvent, hc, handleFinishedEvent_ready env st h,
              stRealtimeDestroy_fields, h]
      | failed p =>
        simp [step, dispatchEvent, hc, handleErrorEvent_eq, stRealtimeDestroy_fields, h]
      | errorEv p =>
        simp [step, dispatchEvent, hc, handleErrorEvent_eq, stRealtimeDestroy_fields, h]

/-- The ready-implies-empty-queue invariant is preserved by every step. -/
theorem step_inv (env : Env) (a : Act) (st : St)
    (h : st.ready = true → st.queue = []) :
    (step env a st).1.ready = true → (step env a st).1.queue = [] := by
  cases a with
  | readyMsg => intro _; rfl
  | destroyAct =>
    intro hr
    exact (pluginDestroy_fields st).2.1.trans
      (h ((pluginDestroy_fields st).1.symm.trans hr))
  | stream ev =>
    cases hc : canDispatch st with
    | false => simpa [step, dispatchEvent, hc] using h
    | true =>
      cases ev with
      | pageavailable p =>
        by_cases hr : st.ready = true
        · simpa [step, dispatchEvent, hc, handlePageAvailableEvent,
                 uap_ready _ st hr] using h
        · simp [step, dispatchEvent, hc, handlePageAvailableEvent,
                uap_notready _ st (by simpa using hr), (by simpa using hr : st.ready = false)]
      | finished =>
        by_cases hr : st.ready = true
        · simpa [step, dispatchEvent, hc, handleFinishedEvent_ready env st hr,
                 stRealtimeDestroy_fields] using h
        · simp [step, dispatchEvent, hc,
                handleFinishedEvent_notready env st (by simpa using hr),
                stRealtimeDestroy_fields, (by simpa using hr : st.ready = false)]
      | failed p =>
        have hs : (step env (Act.stream (Ev.failed p)) st).1 = stRealtimeDestroy st := by
          simp [step, dispatchEvent, hc, handleErrorEvent_eq]
        rw [hs]
        intro hr
        exact (stRealtimeDestroy_fields st).2.1.trans
          (h ((stRealtimeDestroy_fields st).1.symm.trans hr))
      | errorEv p =>
        have hs : (step env (Act.stream (Ev.errorEv p)) st).1 = stRealtimeDestroy st := by
          simp [step, dispatchEvent, hc, handleErrorEvent_eq]
        rw [hs]
        intro hr
        exact (stRealtimeDestroy_fields st).2.1.trans
          (h ((stRealtimeDestroy_fields st).1.symm.trans hr))

/-- One step emits at most one terminal signal, and doing so forfeits the
ability to dispatch: the dispatch budget decreases by at least the number
of terminal signals emitted. -/
theorem step_budget (env : Env) (a : Act) (st : St) :
    terminalCount (step env a st).2 +
        (if canDispatch (step env a st).1 then 1 else 0) ≤
      (if canDispatch st then 1 else 0) := by
  cases a with
  | readyMsg =>
    have h1 : terminalCount (step env Act.readyMsg st).2 = 0 := by
      show terminalCount (broadcastQueuedMessagesList st.queue) = 0
      rw [bqml_eq_map]
      unfold terminalCount
      rw [filter_isTerminal_eq_nil]
      · rfl
      · intro o ho
        simp only [List.mem_map] at ho
        obtain ⟨m, _, rfl⟩ := ho
        exact ⟨m.1, m.2, rfl⟩
    have h2 : canDispatch (step env Act.readyMsg st).1 = canDispatch st :=
      canDispatch_congr _ _ rfl
    rw [h1, h2]
    simp
  | destroyAct =>
    have h2 : canDispatch (step env Act.destroyAct st).1 = false :=
      canDispatch_pluginDestroy st
    rw [h2]
    simp [step, terminalCount]
  | stream ev =>
    cases hc : canDispatch st with
    | false => simp [step, dispatchEvent, hc, terminalCount]
    | true =>
      cases ev with
      | pageavailable p =>
        have h1 : terminalCount (step env (Act.stream (Ev.pageavailable p)) st).2 = 0 := by
          show terminalCount (dispatchEvent env (Ev.pageavailable p) st).2 = 0
          simp only [dispatchEvent, hc, if_pos, handlePageAvailableEvent]
          unfold terminalCount
          by_cases hr : st.ready = true
          · rw [uap_ready _ st hr, filter_isTerminal_eq_nil]
            · rfl
            · intro o ho
              simp only [List.mem_map] at ho
              obtain ⟨m, _, rfl⟩ := ho
              exact ⟨_, _, rfl⟩
          · rw [uap_notready _ st (by simpa using hr)]
            rfl
        have h2 : canDispatch (step env (Act.stream (Ev.pageavailable p)) st).1
            = canDispatch st := by
          refine canDispatch_congr _ _ ?_
          show (dispatchEvent env (Ev.pageavailable p) st).1.realtime = st.realtime
          simp only [dispatchEvent, hc, if_pos, handlePageAvailableEvent]
          exact uap_realtime _ st
        rw [h1, h2, hc]
        simp
      | finished =>
        have h2 : canDispatch (step env (Act.stream Ev.finished) st).1 = false := by
          show canDispatch (dispatchEvent env Ev.finished st).1 = false
          by_cases hr : st.ready = true
          · simp [dispatchEvent, hc, handleFinishedEvent_ready env st hr,
                  canDispatch_stRealtimeDestroy]
          · simp [dispatchEvent, hc,
                  handleFinishedEvent_notready env st (by simpa using hr),
                  canDispatch_stRealtimeDestroy]
        rw [h2]
        by_cases hr : st.ready = true
        · simp [step, dispatchEvent, hc, handleFinishedEvent_ready env st hr,
                terminalCount, isTerminal]
        · simp [step, dispatchEvent, hc,
                handleFinishedEvent_notready env st (by simpa using hr),
                terminalCount, isTerminal]
      | failed p =>
        simp [step, dispatchEvent, hc, handleErrorEvent_eq, terminalCount,
              isTerminal, canDispatch_stRealtimeDestroy]
      | errorEv p =>
        simp [step, dispatchEvent, hc, handleErrorEvent_eq, terminalCount,
              isTerminal, canDispatch_stRealtimeDestroy]

/-- A whole execution never changes viewerConfig.conversionIsComplete. -/
theorem run_conv (env : Env) (acts : List Act) (st : St) :
    (run env acts st).1.conversionIsComplete = st.conversionIsComplete := by
  induction acts generalizing st with
  | nil => rfl
  | cons a rest ih =>
    simpa [run] using (ih (step env a st).1).trans (step_conv env a st)

/-- A whole execution never resets the ready flag. -/
theorem run_ready_mono (env : Env) (acts : List Act) (st : St)
    (h : st.ready = true) :
    (run env acts st).1.ready = true := by
  induction acts generalizing st with
  | nil => exact h
  | cons a rest ih =>
    simpa [run] using ih (step env a st).1 (step_ready_mono env a st h)

/-- The ready-implies-empty-queue invariant holds along every execution. -/
theorem run_inv (env : Env) (acts : List Act) (st : St)
    (h : st.ready = true → st.queue = []) :
    (run env acts st).1.ready = true → (run env acts st).1.queue = [] := by
  induction acts generalizing st with
  | nil => exact h
  | cons a rest ih =>
    simpa [run] using ih (step env a st).1 (step_inv env a st h)

/-- An execution emits at most as many terminal signals as the starting
dispatch budget allows. -/
theorem run_budget (env : Env) (acts : List Act) (st : St) :
    terminalCount (run env acts st).2 +
        (if canDispatch (run env acts st).1 then 1 else 0) ≤
      (if canDispatch st then 1 else 0) := by
  induction acts generalizing st with
  | nil => simp [run, terminalCount]
  | cons a rest ih =>
    have h1 := step_budget env a st
    have h2 := ih (step env a st).1
    have h3 : terminalCount (run env (a :: rest) st).2
        = terminalCount (step env a st).2
          + terminalCount (run env rest (step env a st).1).2 := by
      simp [run, terminalCount, List.filter_append]
    have h4 : (run env (a :: rest) st).1 = (run env rest (step env a st).1).1 := by
      simp [run]
    rw [h3, h4]
    omega

/-- A state that is already ready with an empty queue is fixed by the
ready-and-drain update. -/
theorem st_eta (st : St) (h1 : st.ready = true) (h2 : st.queue = []) :
    ({ st with ready := true, queue := [] } : St) = st := by
  cases st
  simp_all

/-! Concrete states and environments used by the witnesses. -/

/-- A fresh plugin state before init: not ready, empty queue, no wrapper. -/
def stFresh : St :=
  { ready := false, queue := [], realtime := none, conversionIsComplete := true }

/-- A live plugin state: viewer ready, empty queue, open subscription. -/
def stLive : St :=
  { ready := true, queue := [],
    realtime := some { eventSource := some { url := "stream", closed := false } },
    conversionIsComplete := false }

/-- The state produced by init with URL u from the fresh state. -/
def stInitDone : St :=
  { ready := false, queue := [],
    realtime := some { eventSource := some { url := "u", closed := false } },
    conversionIsComplete := false }

/-- Environment in which every payload fails to parse. -/
def envRaw : Env :=
  { numPages := 0, parsePages := fun _ => [], parseErr := fun _ => none }

/-- Environment in which payloads decode to pages [3, 1, 2]. -/
def envPages : Env :=
  { numPages := 0, parsePages := fun _ => [3, 1, 2], parseErr := fun _ => none }

/-- Environment with ten pages total. -/
def envTen : Env :=
  { numPages := 10, parsePages := fun _ => [], parseErr := fun _ => none }

/-! The claim theorems. -/

/-- C1: notifications emitted through the gate while the readiness flag is
false produce no host-bus broadcast at emission time (they are queued in
emission order), and handleReadyMessage then delivers every queued
notification to the host bus in that same FIFO order, leaving the queue
empty. -/
theorem gate_fifo_delivery (msgs : List Msg) (st : St) (h : st.ready = false) :
    (emitMany msgs st).2 = [] ∧
    (emitMany msgs st).1.queue = st.queue ++ msgs ∧
    (handleReadyMessage (emitMany msgs st).1).2 =
      (st.queue ++ msgs).map (fun m => Out.broadcast m.1 m.2) ∧
    (handleReadyMessage (emitMany msgs st).1).1.queue = [] := by
  rw [emitMany_notready msgs st h]
  exact ⟨rfl, rfl, bqml_eq_map _, rfl⟩

/-- Witness for the C1 theorem: two messages emitted before ready are
queued silently and delivered in order on the ready transition. -/
theorem gate_fifo_delivery_witness :
    (emitMany [("pageavailable", MsgData.page 1), ("pageavailable", MsgData.page 2)]
        stFresh).2 = [] ∧
    (emitMany [("pageavailable", MsgData.page 1), ("pageavailable", MsgData.page 2)]
        stFresh).1.queue
      = [("pageavailable", MsgData.page 1), ("pageavailable", MsgData.page 2)] ∧
    (handleReadyMessage
        (emitMany [("pageavailable", MsgData.page 1), ("pageavailable", MsgData.page 2)]
          stFresh).1).2
      = [Out.broadcast "pageavailable" (MsgData.page 1),
         Out.broadcast "pageavailable" (MsgData.page 2)] ∧
    (handleReadyMessage
        (emitMany [("pageavailable", MsgData.page 1), ("pageavailable", MsgData.page 2)]
          stFresh).1).1.queue = [] := by
  simpa [stFresh] using gate_fifo_delivery
    [("pageavailable", MsgData.page 1), ("pageavailable", MsgData.page 2)] stFresh rfl

/-- C2: a finished event handled while the subscription is live first emits
the upto numPages notification through the gate (an immediate bus broadcast
when ready, a queued message in order otherwise), then fires
realtimecomplete directly on the host API, then closes the subscription,
after which no further stream events are dispatched even if the transport
delivers more. -/
theorem finished_event_sequence (env : Env) (st : St) (h : canDispatch st = true) :
    (dispatchEvent env Ev.finished st).2 =
      (if st.ready then [Out.broadcast "pageavailable" (MsgData.upto env.numPages)]
       else []) ++ [Out.fire "realtimecomplete" none] ∧
    (dispatchEvent env Ev.finished st).1.queue =
      st.queue ++ (if st.ready then []
                   else [("pageavailable", MsgData.upto env.numPages)]) ∧
    canDispatch (dispatchEvent env Ev.finished st).1 = false ∧
    ∀ evs : List Ev,
      run env (evs.map Act.stream) (dispatchEvent env Ev.finished st).1 =
        ((dispatchEvent env Ev.finished st).1, []) := by
  have hd : dispatchEvent env Ev.finished st = handleFinishedEvent env st := by
    simp [dispatchEvent, h]
  rw [hd]
  by_cases hr : st.ready = true
  · rw [handleFinishedEvent_ready env st hr, if_pos hr, if_pos hr]
    refine ⟨rfl, ?_, canDispatch_stRealtimeDestroy st,
      fun evs => run_stream_closed env evs _ (canDispatch_stRealtimeDestroy st)⟩
    rw [(stRealtimeDestroy_fields st).2.1]
    simp
  · have hr2 : st.ready = false := by simpa using hr
    rw [handleFinishedEvent_notready env st hr2, if_neg hr, if_neg hr]
    refine ⟨rfl, ?_, canDispatch_stRealtimeDestroy _,
      fun evs => run_stream_closed env evs _ (canDispatch_stRealtimeDestroy _)⟩
    rw [(stRealtimeDestroy_fields _).2.1]

/-- Witness for the C2 theorem: with ten pages and a live ready state, the
finished event broadcasts upto ten, fires realtimecomplete, closes, and two
further transport events dispatch nothing. -/
theorem finished_event_sequence_witness :
    (dispatchEvent envTen Ev.finished stLive).2 =
      [Out.broadcast "pageavailable" (MsgData.upto 10),
       Out.fire "realtimecomplete" none] ∧
    (dispatchEvent envTen Ev.finished stLive).1.queue = [] ∧
    canDispatch (dispatchEvent envTen Ev.finished stLive).1 = false ∧
    run envTen ([Ev.pageavailable "x", Ev.finished].map Act.stream)
        (dispatchEvent envTen Ev.finished stLive).1 =
      ((dispatchEvent envTen Ev.finished stLive).1, []) := by
  obtain ⟨h1, h2, h3, h4⟩ := finished_event_sequence envTen stLive rfl
  exact ⟨by rw [h1]; rfl, by rw [h2]; rfl, h3, h4 [Ev.pageavailable "x", Ev.finished]⟩

/-- C3: over any execution of the plugin, the host API receives at most one
terminal signal (realtimeerror and realtimecomplete counted together): at
most one when the subscription starts live, none when it cannot dispatch —
each terminal handler closes the subscription before any further event can
be dispatched. -/
theorem at_most_one_terminal (env : Env) (acts : List Act) (st : St) :
    terminalCount (run env acts st).2 ≤ if canDispatch st then 1 else 0 :=
  calc terminalCount (run env acts st).2
      ≤ terminalCount (run env acts st).2 +
          (if canDispatch (run env acts st).1 then 1 else 0) := Nat.le_add_right _ _
    _ ≤ if canDispatch st then 1 else 0 := run_budget env acts st

/-- C4: handleReadyMessage is idempotent with respect to delivery — after
the first transition, any later call (even after arbitrary further
activity) leaves the state unchanged and broadcasts nothing, so no queued
notification is ever delivered twice. -/
theorem markReady_idempotent (env : Env) (acts : List Act) (st : St) :
    handleReadyMessage (run env acts (handleReadyMessage st).1).1 =
      ((run env acts (handleReadyMessage st).1).1, []) := by
  have h1 : ((handleReadyMessage st).1).ready = true := rfl
  have h2 : ((handleReadyMessage st).1).queue = [] := rfl
  have hr := run_ready_mono env acts (handleReadyMessage st).1 h1
  have hq := run_inv env acts (handleReadyMessage st).1 (fun _ => h2) hr
  have he := st_eta (run env acts (handleReadyMessage st).1).1 hr hq
  show ({ (run env acts (handleReadyMessage st).1).1 with ready := true, queue := [] },
        broadcastQueuedMessagesList (run env acts (handleReadyMessage st).1).1.queue)
      = ((run env acts (handleReadyMessage st).1).1, [])
  rw [hq, he]
  rfl

/-- C5: a pageavailable stream event whose payload decodes to a pages array
emits exactly one pageavailable notification per index through the
readiness gate, in array order: forwarded to the bus at once when ready,
queued in the same order otherwise. -/
theorem pageavailable_order (env : Env) (payload : String) (pages : List Nat)
    (st : St) (h : env.parsePages payload = pages) :
    handlePageAvailableEvent env payload st =
      if st.ready then
        (st, pages.map fun p => Out.broadcast "pageavailable" (MsgData.page p))
      else
        ({ st with
            queue := st.queue ++ pages.map fun p => ("pageavailable", MsgData.page p) },
         []) := by
  unfold handlePageAvailableEvent
  rw [h]
  by_cases hr : st.ready = true
  · rw [uap_ready _ st hr, if_pos hr]
  · rw [uap_notready _ st (by simpa using hr), if_neg hr]

/-- Witness for the C5 theorem: pages [3, 1, 2] produce page 3, page 1,
page 2 broadcasts in exactly that order. -/
theorem pageavailable_order_witness :
    handlePageAvailableEvent envPages "payload" stLive =
      (stLive, [Out.broadcast "pageavailable" (MsgData.page 3),
                Out.broadcast "pageavailable" (MsgData.page 1),
                Out.broadcast "pageavailable" (MsgData.page 2)]) := by
  rw [pageavailable_order envPages "payload" [3, 1, 2] stLive rfl]
  rfl

/-- C6: a failed or generic error event handled on a live subscription
fires exactly one direct realtimeerror on the host API and closes the
subscription; the message is the decoded error field when the payload
parses, the raw payload text when parsing throws (the decode failure is
recovered locally), and unspecified error when neither yields a nonempty
message. -/
theorem error_event_handling (env : Env) (payload : String) (st : St)
    (h : canDispatch st = true) :
    ∃ m : String,
      dispatchEvent env (Ev.failed payload) st =
        (stRealtimeDestroy st, [Out.fire "realtimeerror" (some (MsgData.err m))]) ∧
      dispatchEvent env (Ev.errorEv payload) st =
        (stRealtimeDestroy st, [Out.fire "realtimeerror" (some (MsgData.err m))]) ∧
      canDispatch (stRealtimeDestroy st) = false ∧
      (∀ d s, env.parseErr payload = some d → d.error = some s → s ≠ "" → m = s) ∧
      (env.parseErr payload = none → payload ≠ "" → m = payload) ∧
      (env.parseErr payload = none → payload = "" → m = "unspecified error") ∧
      (∀ d, env.parseErr payload = some d → (d.error = none ∨ d.error = some "") →
        m = "unspecified error") := by
  refine ⟨errMessageOf env.parseErr payload, ?_, ?_,
    canDispatch_stRealtimeDestroy st, ?_, ?_, ?_, ?_⟩
  · simp [dispatchEvent, h, handleErrorEvent_eq]
  · simp [dispatchEvent, h, handleErrorEvent_eq]
  · intro d s hd hs hne
    simp [errMessageOf, hd, hs, hne]
  · intro hn hne
    simp [errMessageOf, hn, hne]
  · intro hn he
    subst he
    simp [errMessageOf, hn]
  · intro d hd hcase
    rcases hcase with h0 | h0 <;> simp [errMessageOf, hd, h0]

/-- Witness for the C6 theorem: the non-JSON payload boom is recovered as
the raw message and fired once as realtimeerror. -/
theorem error_event_handling_witness :
    dispatchEvent envRaw (Ev.errorEv "boom") stLive =
      (stRealtimeDestroy stLive,
       [Out.fire "realtimeerror" (some (MsgData.err "boom"))]) := by
  obtain ⟨m, h1, h2, h3, h4, h5, h6, h7⟩ := error_event_handling envRaw "boom" stLive rfl
  rw [h2, h5 rfl (by decide)]

/-- C7: teardown is idempotent and total — destroying the Realtime wrapper
twice equals destroying it once, the plugin-level destroy called again is a
no-op, the plugin-level destroy with no wrapper held leaves the state
untouched, and init with no configured URL opens nothing and changes
nothing. -/
theorem destroy_idempotent (r : Realtime) (st st2 : St) (hasES : Bool)
    (h : st2.realtime = none) :
    Realtime.destroy (Realtime.destroy r) = Realtime.destroy r ∧
    pluginDestroy (pluginDestroy st) = pluginDestroy st ∧
    pluginDestroy st2 = st2 ∧
    pluginInit hasES none st = Except.ok st := by
  refine ⟨?_, ?_, ?_, rfl⟩
  · rcases he : r.eventSource with _ | es <;> simp [Realtime.destroy, he]
  · rcases hrt : st.realtime with _ | rr <;> simp [pluginDestroy, hrt]
  · simp [pluginDestroy, h]

/-- Witness for the C7 theorem at a concrete wrapper and concrete states
with and without a held subscription. -/
theorem destroy_idempotent_witness :
    Realtime.destroy
        (Realtime.destroy { eventSource := some { url := "u", closed := false } }) =
      Realtime.destroy { eventSource := some { url := "u", closed := false } } ∧
    pluginDestroy (pluginDestroy stLive) = pluginDestroy stLive ∧
    pluginDestroy stFresh = stFresh ∧
    pluginInit true none stLive = Except.ok stLive :=
  destroy_idempotent { eventSource := some { url := "u", closed := false } }
    stLive stFresh true rfl

/-- C8: without EventSource support the Realtime constructor fails with an
error before any subscription exists, and init with a configured URL
propagates that same error uncaught. -/
theorem no_eventsource_throws (url u : String) (st : St) :
    mkRealtime false url =
      Except.error "Realtime plugin requires EventSource support" ∧
    pluginInit false (some u) st =
      Except.error "Realtime plugin requires EventSource support" :=
  ⟨rfl, rfl⟩

/-- C9: init with a configured URL always sets
viewerConfig.conversionIsComplete to false, and no later activity of the
plugin (stream events, ready message, destroy) ever changes it back. -/
theorem conversion_forced_incomplete (hasES : Bool) (u : String) (st st2 : St)
    (env : Env) (acts : List Act)
    (h : pluginInit hasES (some u) st = Except.ok st2) :
    st2.conversionIsComplete = false ∧
    (run env acts st2).1.conversionIsComplete = false := by
  have hc : st2.conversionIsComplete = false := by
    have h2 : (match mkRealtime hasES u with
        | Except.error e => Except.error e
        | Except.ok r =>
          Except.ok { st with realtime := some r, conversionIsComplete := false })
        = Except.ok st2 := h
    cases hm : mkRealtime hasES u with
    | error e =>
      rw [hm] at h2
      exact Except.noConfusion h2
    | ok r =>
      rw [hm] at h2
      rw [← Except.ok.inj h2]
  exact ⟨hc, (run_conv env acts st2).trans hc⟩

/-- Witness for the C9 theorem: init with URL u from the fresh state yields
the initialized state, whose conversion flag stays false across a ready
message. -/
theorem conversion_forced_incomplete_witness :
    stInitDone.conversionIsComplete = false ∧
    (run envRaw [Act.readyMsg] stInitDone).1.conversionIsComplete = false :=
  conversion_forced_incomplete true "u" stFresh stInitDone envRaw [Act.readyMsg] rfl

/-- C10: whenever the readiness flag is true the pending queue is empty —
the invariant is preserved by every step (stream events, the ready message,
destroy) and by the gate emission itself; handleReadyMessage drains the
queue completely before returning, and the gate never appends to the queue
once the flag is true. -/
theorem ready_queue_invariant (env : Env) (a : Act) (name : String)
    (data : MsgData) (st : St) (h : st.ready = true → st.queue = []) :
    ((step env a st).1.ready = true → (step env a st).1.queue = []) ∧
    ((broadcastMessageWhenReady name data st).1.ready = true →
      (broadcastMessageWhenReady name data st).1.queue = []) ∧
    (handleReadyMessage st).1.queue = [] ∧
    (st.ready = true → (broadcastMessageWhenReady name data st).1.queue = st.queue) := by
  refine ⟨step_inv env a st h, ?_, rfl, ?_⟩
  · intro hr
    have hready : st.ready = true := (bmwr_fields name data st).1.symm.trans hr
    simp [broadcastMessageWhenReady, hready, h hready]
  · intro hr
    simp [broadcastMessageWhenReady, hr]

/-- Witness for the C10 theorem at a ready state with empty queue, across a
ready message step and a gate emission. -/
theorem ready_queue_invariant_witness :
    (((step envRaw Act.readyMsg stLive).1.ready = true →
        (step envRaw Act.readyMsg stLive).1.queue = []) ∧
      ((broadcastMessageWhenReady "pageavailable" (MsgData.page 1) stLive).1.ready = true →
        (broadcastMessageWhenReady "pageavailable" (MsgData.page 1) stLive).1.queue = []) ∧
      (handleReadyMessage stLive).1.queue = [] ∧
      (stLive.ready = true →
        (broadcastMessageWhenReady "pageavailable" (MsgData.page 1) stLive).1.queue
          = stLive.queue)) :=
  ready_queue_invariant envRaw Act.readyMsg "pageavailable" (MsgData.page 1) stLive
    (fun _ => rfl)

end ViewerRealtime
